import Mathlib

/-
  Verification of the reminder-escalation subsystem of the
  student-task-manager repository.

  Shallow embedding of:
  - the Task document fields relevant to reminders (backend Task schema),
  - progressReminder / pushRingHistory / updateTask (backend task controller),
  - the cron scanner tick (backend server.js),
  - the ringtone hook state machine (frontend useRingtone.js),
  - the client reminder queue dedup (frontend App.jsx checkPendingReminders),
  - the quiet-hours predicate and queue activation (frontend App.jsx),
  - the taskService.reminderProgress request wrapper (frontend taskService.js).

  Timestamps are modelled as Int milliseconds since the epoch
  (JavaScript Date.getTime values).
-/

namespace STM

/-- Task priority enum from the Task schema: low | medium | high
    (default medium). -/
inductive Priority where
  | low
  | medium
  | high
  deriving DecidableEq, Repr

/-- maxRemindersMap = \x7b low: 1, medium: 2, high: 3 \x7d in
    progressReminder; the schema restricts priority to the three enum
    values, so the JS fallback `|| 1` is never taken. -/
def maxReminders : Priority → Nat
  | .low => 1
  | .medium => 2
  | .high => 3

/-- priorityRescheduleMap in updateTask: low 30, medium 1440, high 10080
    minutes; the JS fallback `|| 1440` is never taken on the enum. -/
def rescheduleMinutes : Priority → Int
  | .low => 30
  | .medium => 1440
  | .high => 10080

/-- ringHistory entry action enum from the Task schema. -/
inductive RingAction where
  | auto
  | stopped
  | snoozed
  deriving DecidableEq, Repr

/-- One ringHistory entry; `atTime` embeds the JS field `at`
    (a Lean keyword). -/
structure RingEntry where
  atTime : Int
  action : RingAction
  note : String
  deriving DecidableEq, Repr

/-- The reminder-relevant fields of a Task document, with the defaults
    declared in the schema.  The legacy per-task sub-reminder list
    (daysBefore / reminderTime / triggeredCount) is independent of every
    claim and is omitted. -/
structure Task where
  completed : Bool := false
  priority : Priority := .medium
  reminderAt : Option Int := none
  notified : Bool := false
  uiPending : Bool := false
  reminderCount : Nat := 0
  lastRingAt : Option Int := none
  ringHistory : List RingEntry := []
  deriving DecidableEq, Repr

/-- A JavaScript number as it matters to the snooze guard: NaN, the two
    infinities, or a finite (integer-valued) number. -/
inductive JsNumber where
  | nan
  | posInf
  | negInf
  | fin (v : Int)
  deriving DecidableEq, Repr

/-- JS truthiness of a number: 0 and NaN are falsy. -/
def JsNumber.truthy : JsNumber → Bool
  | .nan => false
  | .fin v => v != 0
  | _ => true

/-- Number.isFinite. -/
def JsNumber.finite : JsNumber → Bool
  | .fin _ => true
  | _ => false

/-- The comparison `n > 0` (false on NaN). -/
def JsNumber.pos : JsNumber → Bool
  | .fin v => 0 < v
  | .posInf => true
  | _ => false

/-- The guard `snoozeMinutes && Number.isFinite(snoozeMinutes) &&
    snoozeMinutes > 0` of progressReminder, with an absent body field
    modelled as `none`. -/
def snoozeGuard : Option JsNumber → Bool
  | some n => n.truthy && n.finite && n.pos
  | none => false

/-- The value the snooze path uses when the guard passes: the positive
    finite number of minutes; `none` when the guard fails. -/
def snoozeRequest : Option JsNumber → Option Int
  | some (JsNumber.fin v) => if 0 < v then some v else none
  | _ => none

/-- The guard passes exactly when snoozeRequest extracts a value. -/
theorem snoozeRequest_isSome_eq_guard (s : Option JsNumber) :
    (snoozeRequest s).isSome = snoozeGuard s := by
  match s with
  | none => rfl
  | some .nan => rfl
  | some .posInf => rfl
  | some .negInf => rfl
  | some (.fin v) =>
    by_cases h : 0 < v
    · have hv : v ≠ 0 := by omega
      simp [snoozeRequest, snoozeGuard, JsNumber.truthy, JsNumber.finite,
        JsNumber.pos, h, hv]
    · have hv : ¬ (0 < v) := h
      by_cases h0 : v = 0
      · simp [snoozeRequest, snoozeGuard, JsNumber.truthy, JsNumber.finite,
          JsNumber.pos, h0]
      · simp [snoozeRequest, snoozeGuard, JsNumber.truthy, JsNumber.finite,
          JsNumber.pos, hv, h0]

/-- A failed guard means the snooze path is not taken. -/
theorem snoozeRequest_eq_none_of_guard_false {s : Option JsNumber}
    (h : snoozeGuard s = false) : snoozeRequest s = none := by
  have := snoozeRequest_isSome_eq_guard s
  rw [h] at this
  exact Option.not_isSome_iff_eq_none.mp (by simp [this])

/-- MAX_RING_HISTORY = 20. -/
def MAX_RING_HISTORY : Nat := 20

/-- pushRingHistory: push the entry, then if the length exceeds 20 keep
    the last 20 (`slice(-MAX_RING_HISTORY)`). -/
def pushRingHistory (h : List RingEntry) (e : RingEntry) : List RingEntry :=
  let h2 := h ++ [e]
  if MAX_RING_HISTORY < h2.length then h2.drop (h2.length - MAX_RING_HISTORY)
  else h2

/-- Response of progressReminder: the saved task plus the message field
    of the JSON response. -/
structure ProgressResult where
  task : Task
  message : String
  deriving DecidableEq, Repr

/-- progressReminder (POST /api/tasks/:id/reminder-progress).  The
    not-found path is out of scope (the task is given); `now` is the
    single Date value used for timestamps (the code reads the clock
    twice within the same handler tick). -/
def progressReminder (task : Task) (stopped : Bool)
    (snoozeMinutes : Option JsNumber) (now : Int) : ProgressResult :=
  if task.completed then
    { task := task, message := "Task already completed" }
  else
    match snoozeRequest snoozeMinutes with
    | some v =>
      let nextAt := now + v * 60 * 1000
      { task := { task with
          reminderAt := some nextAt
          uiPending := false
          notified := false
          lastRingAt := some now
          ringHistory := pushRingHistory task.ringHistory
            { atTime := now, action := .snoozed,
              note := "Snoozed " ++ toString v ++ "m" } }
        message := "Reminder snoozed for " ++ toString v ++ " minutes" }
    | none =>
      let m := maxReminders task.priority
      let newCount := task.reminderCount + 1
      if newCount < m then
        { task := { task with
            reminderCount := newCount
            reminderAt := some (now + 60 * 60 * 1000)
            uiPending := false
            notified := false
            lastRingAt := some now
            ringHistory := pushRingHistory task.ringHistory
              { atTime := now,
                action := if stopped then .stopped else .auto,
                note := "Reminder progressed" } }
          message := "Reminder progressed and rescheduled +1 hour" }
      else
        { task := { task with
            reminderCount := 0
            reminderAt := none
            uiPending := false
            notified := false
            lastRingAt := some now
            ringHistory := pushRingHistory task.ringHistory
              { atTime := now,
                action := if stopped then .stopped else .auto,
                note := "Max reminders reached" } }
          message := "All reminders completed - reminder removed from task" }

/-- Claim C1: for a non-completed task, calls to the progress path of
    progressReminder (no valid snoozeMinutes) escalate while
    reminderCount + 1 < maxReminders(priority), setting
    reminderCount = newCount, reminderAt = now + 60 minutes,
    uiPending = false, notified = false; the call at which
    newCount >= maxReminders resets reminderCount to 0, clears
    reminderAt, and does not mark the task completed.  In particular,
    for priority high and reminderCount 0, three consecutive
    progress(stopped = false) calls yield reminderCount 1, then 2, then
    0 with reminderAt = none. -/
theorem claim_C1_progress_escalation :
    (∀ (t : Task) (stopped : Bool) (now : Int),
      t.completed = false →
      t.reminderCount + 1 < maxReminders t.priority →
      (progressReminder t stopped none now).task.reminderCount
          = t.reminderCount + 1 ∧
      (progressReminder t stopped none now).task.reminderAt
          = some (now + 60 * 60 * 1000) ∧
      (progressReminder t stopped none now).task.uiPending = false ∧
      (progressReminder t stopped none now).task.notified = false) ∧
    (∀ (t : Task) (stopped : Bool) (now : Int),
      t.completed = false →
      maxReminders t.priority ≤ t.reminderCount + 1 →
      (progressReminder t stopped none now).task.reminderCount = 0 ∧
      (progressReminder t stopped none now).task.reminderAt = none ∧
      (progressReminder t stopped none now).task.completed = false) ∧
    (∀ (t : Task) (n1 n2 n3 : Int),
      t.completed = false → t.reminderCount = 0 → t.priority = .high →
      (progressReminder t false none n1).task.reminderCount = 1 ∧
      (progressReminder t false none n1).task.reminderAt
          = some (n1 + 60 * 60 * 1000) ∧
      (progressReminder (progressReminder t false none n1).task
          false none n2).task.reminderCount = 2 ∧
      (progressReminder (progressReminder t false none n1).task
          false none n2).task.reminderAt = some (n2 + 60 * 60 * 1000) ∧
      (progressReminder (progressReminder
          (progressReminder t false none n1).task false none n2).task
          false none n3).task.reminderCount = 0 ∧
      (progressReminder (progressReminder
          (progressReminder t false none n1).task false none n2).task
          false none n3).task.reminderAt = none ∧
      (progressReminder (progressReminder
          (progressReminder t false none n1).task false none n2).task
          false none n3).task.completed = false) := by
  refine ⟨?_, ?_, ?_⟩
  · intro t stopped now hc hlt
    simp [progressReminder, snoozeRequest, hc, hlt]
  · intro t stopped now hc hge
    have hnlt : ¬ (t.reminderCount + 1 < maxReminders t.priority) := by omega
    simp [progressReminder, snoozeRequest, hc, hnlt]
  · intro t n1 n2 n3 hc hcount hp
    simp [progressReminder, snoozeRequest, hc, hcount, hp, maxReminders]

/-- Concrete instantiation of claim C1 at a fresh high-priority task. -/
theorem claim_C1_progress_escalation_witness :
    ((Task.mk false .high (some 0) true true 0 none []).completed = false
      ∧ (Task.mk false .high (some 0) true true 0 none []).reminderCount + 1
          < maxReminders (Task.mk false .high (some 0) true true 0 none []).priority
      ∧ (Task.mk false .high (some 0) true true 0 none []).reminderCount = 0
      ∧ (Task.mk false .high (some 0) true true 0 none []).priority = .high) ∧
    (progressReminder (Task.mk false .high (some 0) true true 0 none [])
        true none 100).task.reminderCount = 1 ∧
    (progressReminder (Task.mk false .medium none false false 1 none [])
        false none 100).task.reminderAt = none ∧
    (progressReminder (progressReminder (progressReminder
        (Task.mk false .high (some 0) true true 0 none [])
        false none 10).task false none 20).task false none 30).task.reminderAt
      = none := by
  refine ⟨⟨rfl, by decide, rfl, rfl⟩, ?_, ?_, ?_⟩
  · exact (claim_C1_progress_escalation.1
      (Task.mk false .high (some 0) true true 0 none []) true 100
      rfl (by decide)).1
  · exact ((claim_C1_progress_escalation.2.1
      (Task.mk false .medium none false false 1 none []) false 100
      rfl (by decide)).2).1
  · exact (claim_C1_progress_escalation.2.2
      (Task.mk false .high (some 0) true true 0 none []) 10 20 30
      rfl rfl rfl).2.2.2.2.2.1

/-- The request body of PUT /api/tasks/:id as far as the reminder logic
    reads it: `none` in the outer Option models an absent (undefined)
    field, which mongoose drops from the update so the stored value is
    kept; `some none` for reminderAt models an explicit null. -/
structure UpdateBody where
  priority : Option Priority := none
  completed : Option Bool := none
  reminderAt : Option (Option Int) := none
  deriving DecidableEq, Repr

/-- updateTask (PUT /api/tasks/:id): when the body marks the task
    completed while the stored task has an active reminderAt and was not
    completed, reminderAt is recomputed as the stored reminderAt plus
    priorityRescheduleMap[priorityLevel] minutes; otherwise the body
    value passes through.  `notified: false` is always part of the
    update.  uiPending is not part of the update, so it keeps its stored
    value. -/
def updateTask (t : Task) (body : UpdateBody) : Task :=
  let priorityLevel := body.priority.getD t.priority
  let newReminderAt : Option (Option Int) :=
    if body.completed.getD false && t.reminderAt.isSome && !t.completed then
      some (some (t.reminderAt.getD 0 + rescheduleMinutes priorityLevel * 60000))
    else
      body.reminderAt
  { t with
    priority := priorityLevel
    completed := body.completed.getD t.completed
    reminderAt := newReminderAt.getD t.reminderAt
    notified := false }

/-- createTask (POST /api/tasks): the reminder fields take the schema
    defaults; the body only supplies priority and completed (besides the
    fields irrelevant to reminders). -/
def createTask (priority : Priority) (completed : Option Bool) : Task :=
  { priority := priority, completed := completed.getD false }

/-- One task as seen by a cron tick of server.js, together with its
    environment: the owner email produced by `.populate` (absent when
    the user reference does not resolve) and whether the email channel
    will report success.  sendReminderEmail catches every error and
    returns a success flag, so the channel is modelled as a total
    boolean outcome. -/
structure ScanItem where
  task : Task
  ownerEmail : Option String
  emailSendSucceeds : Bool
  deriving DecidableEq, Repr

/-- The cron query: reminderAt <= now AND notified = false AND
    completed = false. -/
def dueForReminder (now : Int) (t : Task) : Bool :=
  (match t.reminderAt with
   | some r => decide (r ≤ now)
   | none => false) && !t.notified && !t.completed

/-- The loop body of the cron tick for one matched task: tasks whose
    owner email is missing are skipped with a warning; otherwise
    sendReminderEmail is awaited and, regardless of its result, the task
    is saved with notified = true and uiPending = true. -/
def scanProcessOne (it : ScanItem) : Task :=
  match it.ownerEmail with
  | none => it.task
  | some _ => { it.task with notified := true, uiPending := true }

/-- A whole cron tick over the store: matched tasks go through
    scanProcessOne, the rest are untouched. -/
def scanTick (now : Int) (items : List ScanItem) : List Task :=
  items.map (fun it =>
    if dueForReminder now it.task then scanProcessOne it else it.task)

/-- The operations that mutate the reminder state of one task. -/
inductive Op where
  | update (body : UpdateBody)
  | scan (ownerEmail : Option String) (emailSendSucceeds : Bool) (now : Int)
  | progress (stopped : Bool) (snoozeMinutes : Option JsNumber) (now : Int)
  deriving DecidableEq, Repr

/-- Apply one operation to a task (the scan only touches the task when
    the cron query matches it). -/
def applyOp (t : Task) : Op → Task
  | .update body => updateTask t body
  | .scan email ok now =>
      if dueForReminder now t then
        scanProcessOne { task := t, ownerEmail := email, emailSendSucceeds := ok }
      else t
  | .progress stopped sn now => (progressReminder t stopped sn now).task

/-- The claimed invariant: uiPending implies notified. -/
def uiImpliesNotified (t : Task) : Bool :=
  !t.uiPending || t.notified

/-- A sequence of real operations reaching a violating state: set a
    reminder by editing the task, let the scanner fire it, then edit the
    task again without completing it. -/
def c2Ops : List Op :=
  [ .update { priority := some .high, completed := some false,
              reminderAt := some (some 1000) },
    .scan (some "user@example.com") true 2000,
    .update { priority := none, completed := some false,
              reminderAt := some (some 1000) } ]

/-- Claim C2 is false: after a task is created, given a reminder, fired
    by the scanner, and then edited through updateTask without being
    completed, the stored state has uiPending = true and
    notified = false — updateTask unconditionally resets notified and
    never touches uiPending. -/
theorem claim_C2_counterexample :
    (c2Ops.foldl applyOp (createTask .high (some false))).uiPending = true ∧
    (c2Ops.foldl applyOp (createTask .high (some false))).notified = false ∧
    uiImpliesNotified (c2Ops.foldl applyOp (createTask .high (some false)))
      = false := by
  decide

/-- Claim C2 amended: createTask establishes uiPending → notified, and a
    scanner tick and progressReminder (progress or snooze) preserve it;
    updateTask does not preserve it, because it resets notified while
    leaving uiPending unchanged. -/
theorem claim_C2_amended_invariant :
    (∀ (p : Priority) (c : Option Bool),
      uiImpliesNotified (createTask p c) = true) ∧
    (∀ (t : Task) (email : Option String) (ok : Bool) (now : Int),
      uiImpliesNotified t = true →
      uiImpliesNotified (applyOp t (.scan email ok now)) = true) ∧
    (∀ (t : Task) (stopped : Bool) (sn : Option JsNumber) (now : Int),
      uiImpliesNotified t = true →
      uiImpliesNotified (applyOp t (.progress stopped sn now)) = true) := by
  refine ⟨?_, ?_, ?_⟩
  · intro p c
    simp [uiImpliesNotified, createTask]
  · intro t email ok now h
    by_cases hd : dueForReminder now t = true
    · match email with
      | none => simpa [applyOp, hd, scanProcessOne] using h
      | some e => simp [applyOp, hd, scanProcessOne, uiImpliesNotified]
    · simp only [Bool.not_eq_true] at hd
      simpa [applyOp, hd] using h
  · intro t stopped sn now h
    by_cases hc : t.completed = true
    · simpa [applyOp, progressReminder, hc] using h
    · simp only [Bool.not_eq_true] at hc
      match hs : snoozeRequest sn with
      | some v => simp [applyOp, progressReminder, hc, hs, uiImpliesNotified]
      | none =>
        by_cases hlt : t.reminderCount + 1 < maxReminders t.priority
        · simp [applyOp, progressReminder, hc, hs, hlt, uiImpliesNotified]
        · simp [applyOp, progressReminder, hc, hs, hlt, uiImpliesNotified]

/-- Concrete instantiation of the amended claim C2. -/
theorem claim_C2_amended_invariant_witness :
    uiImpliesNotified (Task.mk false .low (some 5) true true 0 none []) = true ∧
    uiImpliesNotified
      (applyOp (Task.mk false .low (some 5) true true 0 none [])
        (.scan (some "a@b.c") false 9)) = true ∧
    uiImpliesNotified
      (applyOp (Task.mk false .low (some 5) true true 0 none [])
        (.progress true none 9)) = true := by
  refine ⟨by decide, ?_, ?_⟩
  · exact claim_C2_amended_invariant.2.1
      (Task.mk false .low (some 5) true true 0 none [])
      (some "a@b.c") false 9 (by decide)
  · exact claim_C2_amended_invariant.2.2
      (Task.mk false .low (some 5) true true 0 none [])
      true none 9 (by decide)

/-- Claim C4: a matched task whose owner email resolves is saved with
    notified = true and uiPending = true; the outcome does not depend on
    the email channel result (sendReminderEmail catches every error and
    only returns a success flag, so a failure is never raised); and a
    tick processes every matched item independently, so one failing item
    never prevents the rest of the tick (scanTick distributes over
    append and preserves length). -/
theorem claim_C4_scanner_marks_regardless :
    (∀ (it : ScanItem) (now : Int) (e : String),
      dueForReminder now it.task = true →
      it.ownerEmail = some e →
      (scanProcessOne it).notified = true ∧
      (scanProcessOne it).uiPending = true) ∧
    (∀ (t : Task) (email : Option String) (b1 b2 : Bool),
      scanProcessOne { task := t, ownerEmail := email, emailSendSucceeds := b1 }
        = scanProcessOne { task := t, ownerEmail := email, emailSendSucceeds := b2 }) ∧
    (∀ (now : Int) (l1 l2 : List ScanItem),
      scanTick now (l1 ++ l2) = scanTick now l1 ++ scanTick now l2) ∧
    (∀ (now : Int) (items : List ScanItem),
      (scanTick now items).length = items.length) := by
  refine ⟨?_, ?_, ?_, ?_⟩
  · intro it now e _ he
    cases it with
    | mk t email ok =>
      simp only at he
      subst he
      simp [scanProcessOne]
  · intro t email b1 b2
    match email with
    | none => rfl
    | some e => rfl
  · intro now l1 l2
    simp [scanTick]
  · intro now items
    simp [scanTick]

/-- Concrete instantiation of claim C4: a due task with a resolving
    owner email is flagged even when the channel reports failure. -/
theorem claim_C4_scanner_marks_regardless_witness :
    dueForReminder 50 (Task.mk false .low (some 10) false false 0 none [])
      = true ∧
    (STM.ScanItem.mk (Task.mk false .low (some 10) false false 0 none [])
      (some "a@b.c") false).ownerEmail = some "a@b.c" ∧
    (scanProcessOne (STM.ScanItem.mk
      (Task.mk false .low (some 10) false false 0 none [])
      (some "a@b.c") false)).notified = true ∧
    (scanProcessOne (STM.ScanItem.mk
      (Task.mk false .low (some 10) false false 0 none [])
      (some "a@b.c") false)).uiPending = true := by
  refine ⟨by decide, by decide, ?_⟩
  exact claim_C4_scanner_marks_regardless.1
    (STM.ScanItem.mk (Task.mk false .low (some 10) false false 0 none [])
      (some "a@b.c") false) 50 "a@b.c" (by decide) rfl

/-- Claim C5: when the update marks a non-completed task completed while
    it has a stored reminderAt, the saved reminderAt is the previous
    reminderAt plus \x7b low: 30, medium: 1440, high: 10080 \x7d minutes
    (computed from the previous value, not from now) and notified is
    reset to false; when the task was already completed or has no stored
    reminderAt, the auto-reschedule does not apply and reminderAt is
    whatever the body supplied (unchanged when absent). -/
theorem claim_C5_completion_reschedule :
    (∀ (t : Task) (body : UpdateBody) (r : Int),
      body.completed = some true →
      t.reminderAt = some r →
      t.completed = false →
      (updateTask t body).reminderAt
        = some (r + rescheduleMinutes (body.priority.getD t.priority) * 60000) ∧
      (updateTask t body).notified = false) ∧
    (∀ (t : Task) (body : UpdateBody),
      t.completed = true ∨ t.reminderAt = none →
      (updateTask t body).reminderAt = body.reminderAt.getD t.reminderAt ∧
      (updateTask t body).uiPending = t.uiPending) := by
  constructor
  · intro t body r hbc hra hc
    simp [updateTask, hbc, hra, hc]
  · intro t body h
    cases h with
    | inl hc => simp [updateTask, hc]
    | inr hra =>
      by_cases hbc : body.completed.getD false = true
      · simp [updateTask, hbc, hra]
      · simp only [Bool.not_eq_true] at hbc
        simp [updateTask, hbc, hra]

/-- Concrete instantiation of claim C5: scenario D, a medium-priority
    task with reminderAt 1000 is marked completed and the reminder moves
    to 1000 + 1440 * 60000. -/
theorem claim_C5_completion_reschedule_witness :
    (UpdateBody.mk (some .medium) (some true) (some (some 1000))).completed
      = some true ∧
    (Task.mk false .medium (some 1000) true true 0 none []).reminderAt
      = some 1000 ∧
    (Task.mk false .medium (some 1000) true true 0 none []).completed
      = false ∧
    (updateTask (Task.mk false .medium (some 1000) true true 0 none [])
      (UpdateBody.mk (some .medium) (some true) (some (some 1000)))).reminderAt
      = some (1000 + 1440 * 60000) ∧
    (updateTask (Task.mk true .medium (some 1000) true true 0 none [])
      (UpdateBody.mk none (some false) none)).reminderAt = some 1000 := by
  refine ⟨rfl, rfl, rfl, ?_, ?_⟩
  · have h := (claim_C5_completion_reschedule.1
      (Task.mk false .medium (some 1000) true true 0 none [])
      (UpdateBody.mk (some .medium) (some true) (some (some 1000)))
      1000 rfl rfl rfl).1
    simpa [rescheduleMinutes] using h
  · exact (claim_C5_completion_reschedule.2
      (Task.mk true .medium (some 1000) true true 0 none [])
      (UpdateBody.mk none (some false) none) (Or.inl rfl)).1

/-- The entry pushed last is the last element of the history. -/
theorem pushRingHistory_getLast (h : List RingEntry) (e : RingEntry) :
    (pushRingHistory h e).getLast? = some e := by
  unfold pushRingHistory
  by_cases hlen : MAX_RING_HISTORY < (h ++ [e]).length
  · have hk : (h ++ [e]).length - MAX_RING_HISTORY ≤ h.length := by
      simp only [List.length_append, List.length_singleton, MAX_RING_HISTORY]
      omega
    rw [if_pos hlen, List.drop_append_of_le_length hk, List.getLast?_concat]
  · rw [if_neg hlen, List.getLast?_concat]

/-- Length after a push: one more, capped at 20. -/
theorem pushRingHistory_length (h : List RingEntry) (e : RingEntry) :
    (pushRingHistory h e).length = min (h.length + 1) MAX_RING_HISTORY := by
  unfold pushRingHistory
  by_cases hlen : MAX_RING_HISTORY < (h ++ [e]).length
  · rw [if_pos hlen]
    simp only [List.length_drop, List.length_append, List.length_singleton,
      MAX_RING_HISTORY] at *
    omega
  · rw [if_neg hlen]
    simp only [List.length_append, List.length_singleton,
      MAX_RING_HISTORY] at *
    omega

/-- A push keeps a suffix of the appended list: older entries are the
    ones dropped. -/
theorem pushRingHistory_suffix (h : List RingEntry) (e : RingEntry) :
    pushRingHistory h e <:+ h ++ [e] := by
  unfold pushRingHistory
  by_cases hlen : MAX_RING_HISTORY < (h ++ [e]).length
  · rw [if_pos hlen]
    exact List.drop_suffix _ _
  · rw [if_neg hlen]

/-- Every branch of progressReminder keeps the history within the cap. -/
theorem progress_ringHistory_le (t : Task) (stopped : Bool)
    (sn : Option JsNumber) (now : Int)
    (h : t.ringHistory.length ≤ MAX_RING_HISTORY) :
    (progressReminder t stopped sn now).task.ringHistory.length
      ≤ MAX_RING_HISTORY := by
  by_cases hc : t.completed = true
  · simpa [progressReminder, hc] using h
  · simp only [Bool.not_eq_true] at hc
    match hsr : snoozeRequest sn with
    | some v =>
      simp [progressReminder, hc, hsr, pushRingHistory_length]
    | none =>
      by_cases hlt : t.reminderCount + 1 < maxReminders t.priority
      · simp [progressReminder, hc, hsr, hlt, pushRingHistory_length]
      · simp [progressReminder, hc, hsr, hlt, pushRingHistory_length]

/-- Claim C3: for a non-completed task and a positive finite
    snoozeMinutes value v, the snooze path sets
    reminderAt = now + v minutes, uiPending = false, notified = false,
    leaves reminderCount unchanged whatever its value, and appends a
    history entry with action snoozed and note "Snoozed vm"; a
    non-positive or non-finite snoozeMinutes fails the guard and the
    call behaves exactly like a call without snoozeMinutes (the normal
    escalation path), not an error. -/
theorem claim_C3_snooze_behavior :
    (∀ (t : Task) (stopped : Bool) (v now : Int),
      t.completed = false → 0 < v →
      (progressReminder t stopped (some (.fin v)) now).task.reminderAt
          = some (now + v * 60 * 1000) ∧
      (progressReminder t stopped (some (.fin v)) now).task.uiPending
          = false ∧
      (progressReminder t stopped (some (.fin v)) now).task.notified
          = false ∧
      (progressReminder t stopped (some (.fin v)) now).task.reminderCount
          = t.reminderCount ∧
      (progressReminder t stopped (some (.fin v)) now).task.ringHistory
          = pushRingHistory t.ringHistory
              { atTime := now, action := .snoozed,
                note := "Snoozed " ++ toString v ++ "m" } ∧
      (progressReminder t stopped (some (.fin v)) now).task.ringHistory.getLast?
          = some { atTime := now, action := .snoozed,
                   note := "Snoozed " ++ toString v ++ "m" }) ∧
    (∀ (t : Task) (stopped : Bool) (s : Option JsNumber) (now : Int),
      snoozeGuard s = false →
      progressReminder t stopped s now = progressReminder t stopped none now) := by
  constructor
  · intro t stopped v now hc hv
    have hsr : snoozeRequest (some (JsNumber.fin v)) = some v := by
      simp [snoozeRequest, hv]
    refine ⟨?_, ?_, ?_, ?_, ?_, ?_⟩ <;>
      simp [progressReminder, hc, hsr, pushRingHistory_getLast]
  · intro t stopped s now hg
    have hsr : snoozeRequest s = none := snoozeRequest_eq_none_of_guard_false hg
    unfold progressReminder
    rw [hsr]
    rfl

/-- Concrete instantiation of claim C3: scenario C, snooze 10 on a fired
    reminder, plus a malformed (negative) snooze falling through. -/
theorem claim_C3_snooze_behavior_witness :
    ((Task.mk false .high (some 0) true true 2 none []).completed = false
      ∧ (0 : Int) < 10
      ∧ snoozeGuard (some (.fin (-5))) = false) ∧
    (progressReminder (Task.mk false .high (some 0) true true 2 none [])
        false (some (.fin 10)) 7).task.reminderAt = some (7 + 10 * 60 * 1000) ∧
    (progressReminder (Task.mk false .high (some 0) true true 2 none [])
        false (some (.fin 10)) 7).task.reminderCount = 2 ∧
    (progressReminder (Task.mk false .high (some 0) true true 2 none [])
        false (some (.fin 10)) 7).task.ringHistory.getLast?
      = some { atTime := 7, action := .snoozed, note := "Snoozed 10m" } ∧
    progressReminder (Task.mk false .high (some 0) true true 2 none [])
        false (some (.fin (-5))) 7
      = progressReminder (Task.mk false .high (some 0) true true 2 none [])
        false none 7 := by
  refine ⟨⟨rfl, by decide, by decide⟩, ?_, ?_, ?_, ?_⟩
  · exact (claim_C3_snooze_behavior.1
      (Task.mk false .high (some 0) true true 2 none []) false 10 7
      rfl (by decide)).1
  · exact (claim_C3_snooze_behavior.1
      (Task.mk false .high (some 0) true true 2 none []) false 10 7
      rfl (by decide)).2.2.2.1
  · have h := (claim_C3_snooze_behavior.1
      (Task.mk false .high (some 0) true true 2 none []) false 10 7
      rfl (by decide)).2.2.2.2.2
    simpa using h
  · exact claim_C3_snooze_behavior.2
      (Task.mk false .high (some 0) true true 2 none []) false
      (some (.fin (-5))) 7 (by decide)

/-- Claim C7: pushRingHistory grows the history by one entry capped at
    20 and keeps a suffix of the appended sequence (the oldest entries
    are the ones evicted, the newest are kept in order), and any
    sequence of progressReminder calls (progress or snooze, which are
    the operations that append ring history) keeps
    ringHistory.length <= 20. -/
theorem claim_C7_ring_history_bounded :
    (∀ (h : List RingEntry) (e : RingEntry),
      (pushRingHistory h e).length = min (h.length + 1) MAX_RING_HISTORY ∧
      (pushRingHistory h e).length ≤ MAX_RING_HISTORY ∧
      pushRingHistory h e <:+ h ++ [e]) ∧
    (∀ (t : Task) (calls : List (Bool × Option JsNumber × Int)),
      t.ringHistory.length ≤ MAX_RING_HISTORY →
      (calls.foldl
        (fun acc c => (progressReminder acc c.1 c.2.1 c.2.2).task)
        t).ringHistory.length ≤ MAX_RING_HISTORY) := by
  constructor
  · intro h e
    refine ⟨pushRingHistory_length h e, ?_, pushRingHistory_suffix h e⟩
    rw [pushRingHistory_length h e]
    exact Nat.min_le_right _ _
  · intro t calls
    induction calls generalizing t with
    | nil => intro h; simpa using h
    | cons c rest ih =>
      intro h
      exact ih _ (progress_ringHistory_le t c.1 c.2.1 c.2.2 h)

/-- Concrete instantiation of claim C7: a fresh task with empty history
    stays within the cap over a mixed progress/snooze call sequence. -/
theorem claim_C7_ring_history_bounded_witness :
    (Task.mk false .high (some 0) true true 0 none []).ringHistory.length
      ≤ MAX_RING_HISTORY ∧
    (([(true, none, 10), (false, some (JsNumber.fin 10), 20),
       (false, none, 30)] : List (Bool × Option JsNumber × Int)).foldl
      (fun acc c => (progressReminder acc c.1 c.2.1 c.2.2).task)
      (Task.mk false .high (some 0) true true 0 none [])).ringHistory.length
      ≤ MAX_RING_HISTORY := by
  refine ⟨by decide, ?_⟩
  exact claim_C7_ring_history_bounded.2
    (Task.mk false .high (some 0) true true 0 none [])
    [(true, none, 10), (false, some (JsNumber.fin 10), 20), (false, none, 30)]
    (by decide)

/-- State of the useRingtone hook.  trackedTimeouts counts the handles
    held in timeoutsRef.current; nothing in useRingtone.js ever pushes a
    handle into that array — in particular the anonymous 10-second
    auto-stop setTimeout created inside playSingleRing is not stored —
    so that pending timer is modelled by the separate flag
    autoStopPending.  onEndRegistered models onEndRef.current being set
    (scheduleRingtones sets it; no function in the file clears it).
    onEndCalls counts invocations of the caller-supplied onEnd. -/
structure RingtoneState where
  audioActive : Bool := false
  isPlaying : Bool := false
  trackedTimeouts : Nat := 0
  autoStopPending : Bool := false
  onEndRegistered : Bool := false
  onEndCalls : Nat := 0
  hasCurrentTask : Bool := false
  ringCount : Nat := 0
  deriving DecidableEq, Repr

/-- stopRingtone: pause and drop the audio, clear the timeouts array
    (which is empty), reset isPlaying, currentTask and ringCount.  The
    auto-stop timer keeps running (its handle was never tracked) and
    onEndRef is not cleared. -/
def stopRingtone (s : RingtoneState) : RingtoneState :=
  { s with
    audioActive := false
    trackedTimeouts := 0
    isPlaying := false
    hasCurrentTask := false
    ringCount := 0 }

/-- scheduleRingtones: stopRingtone, then set the current task, reset
    the ring counter and register the onEnd callback. -/
def scheduleRingtones (s : RingtoneState) : RingtoneState :=
  { stopRingtone s with
    hasCurrentTask := true
    ringCount := 0
    onEndRegistered := true }

/-- The success continuation of audio.play() in playSingleRing: the
    audio handle is kept, isPlaying is set, an auto-stop setTimeout for
    10 seconds is created (and its handle discarded), and the ring
    counter is bumped. -/
def playStartSuccess (s : RingtoneState) : RingtoneState :=
  { s with
    audioActive := true
    isPlaying := true
    autoStopPending := true
    ringCount := s.ringCount + 1 }

/-- The 10-second auto-stop timer firing: pauses the audio, clears
    isPlaying, and invokes onEnd when onEndRef is set — without checking
    whether a stop already happened. -/
def autoStopFire (s : RingtoneState) : RingtoneState :=
  if s.autoStopPending then
    { s with
      isPlaying := false
      autoStopPending := false
      onEndCalls := s.onEndCalls + (if s.onEndRegistered then 1 else 0) }
  else s

/-- stopAndEnd (user presses STOP): stopRingtone, then invoke onEnd
    once when onEndRef is set. -/
def stopAndEnd (s : RingtoneState) : RingtoneState :=
  { stopRingtone s with
    onEndCalls := (stopRingtone s).onEndCalls
      + (if (stopRingtone s).onEndRegistered then 1 else 0) }

/-- Claim C6 describes intended behavior the code does not implement:
    on the trace schedule → play → explicit stopAndEnd → 10s timer
    firing, onEnd is invoked twice, because stopRingtone only clears the
    (always empty) timeoutsRef array — the auto-stop setTimeout handle
    is never stored there, so the timer survives the stop and fires
    onEnd a second time.  Normal termination (no explicit stop) does
    invoke onEnd exactly once, a second timer fire is a no-op, and
    stopRingtone on an idle player is a no-op. -/
theorem claim_C6_onEnd_double_fire :
    (stopAndEnd (playStartSuccess (scheduleRingtones {}))).onEndCalls = 1 ∧
    (stopAndEnd (playStartSuccess (scheduleRingtones {}))).autoStopPending
      = true ∧
    (autoStopFire (stopAndEnd (playStartSuccess
      (scheduleRingtones {})))).onEndCalls = 2 ∧
    (autoStopFire (playStartSuccess (scheduleRingtones {}))).onEndCalls = 1 ∧
    (autoStopFire (autoStopFire (playStartSuccess
      (scheduleRingtones {})))).onEndCalls = 1 ∧
    stopRingtone {} = ({} : RingtoneState) := by
  decide

/-- quietHoursWindow = \x7b startHour: 0, endHour: 5 \x7d in App.jsx. -/
def quietHoursStart : Nat := 0

/-- End hour of the quiet-hours window. -/
def quietHoursEnd : Nat := 5

/-- isWithinQuietHours from App.jsx, over the local hour of the clock. -/
def isWithinQuietHours (hour : Nat) : Bool :=
  if quietHoursStart = quietHoursEnd then false
  else if quietHoursStart < quietHoursEnd then
    decide (quietHoursStart ≤ hour) && decide (hour < quietHoursEnd)
  else
    decide (quietHoursStart ≤ hour) || decide (hour < quietHoursEnd)

/-- The client state read by the queue-activation effect; queue entries
    are task identifiers. -/
structure ClientState where
  activeReminderTask : Option Nat := none
  reminderQueue : List Nat := []
  showReminderPopup : Bool := false
  audioPermissionGranted : Bool := false
  deriving DecidableEq, Repr

/-- Result of one run of the activation effect: the new client state
    and whether scheduleRingtones was called. -/
structure ActivationStep where
  state : ClientState
  audioScheduled : Bool
  deriving DecidableEq, Repr

/-- The queue-activation useEffect of App.jsx: when no reminder is
    active and the queue is non-empty, pop the head, mark it active,
    show the popup, and schedule audio only when audio permission is
    granted and the clock is outside quiet hours. -/
def activateNextReminder (s : ClientState) (hour : Nat) : ActivationStep :=
  if s.activeReminderTask.isSome || s.reminderQueue.isEmpty then
    { state := s, audioScheduled := false }
  else
    match s.reminderQueue with
    | [] => { state := s, audioScheduled := false }
    | next :: rest =>
      { state := { s with
          reminderQueue := rest
          activeReminderTask := some next
          showReminderPopup := true }
        audioScheduled := s.audioPermissionGranted
          && !(isWithinQuietHours hour) }

/-- The time-independent shape of a progressReminder outcome: every
    field except the raw timestamps, with reminderAt taken relative to
    the call time. -/
def progressShape (r : ProgressResult) (now : Int) :
    Nat × Bool × Bool × Bool × Option Int × String :=
  (r.task.reminderCount, r.task.uiPending, r.task.notified,
   r.task.completed, r.task.reminderAt.map (fun x => x - now), r.message)

/-- Claim C8: activating a reminder during quiet hours still displays
    it (popup shown, task made active) while audio is skipped; and the
    server-side transition of progressReminder for a non-completed task
    has the same shape whatever the call time, in particular whether
    the call falls inside or outside quiet hours (the handler never
    reads the local hour). -/
theorem claim_C8_quiet_hours_silence_audio_only :
    (∀ (s : ClientState) (q : Nat) (rest : List Nat) (hour : Nat),
      s.activeReminderTask = none →
      s.reminderQueue = q :: rest →
      isWithinQuietHours hour = true →
      (activateNextReminder s hour).state.showReminderPopup = true ∧
      (activateNextReminder s hour).state.activeReminderTask = some q ∧
      (activateNextReminder s hour).audioScheduled = false) ∧
    (∀ (t : Task) (stopped : Bool) (sn : Option JsNumber) (n1 n2 : Int),
      t.completed = false →
      progressShape (progressReminder t stopped sn n1) n1
        = progressShape (progressReminder t stopped sn n2) n2) := by
  constructor
  · intro s q rest hour hact hq hquiet
    simp [activateNextReminder, hact, hq, hquiet]
  · intro t stopped sn n1 n2 hc
    match hsr : snoozeRequest sn with
    | some v =>
      simp [progressReminder, hc, hsr, progressShape]
    | none =>
      by_cases hlt : t.reminderCount + 1 < maxReminders t.priority
      · simp [progressReminder, hc, hsr, hlt, progressShape]
      · simp [progressReminder, hc, hsr, hlt, progressShape]

/-- Concrete instantiation of claim C8: activation at 02:00 (inside the
    00:00–05:00 window) shows the reminder without audio, and the
    progress transition at an in-window time has the same shape as at an
    out-of-window time. -/
theorem claim_C8_quiet_hours_silence_audio_only_witness :
    ((ClientState.mk none [7, 8] false true).activeReminderTask = none ∧
      (ClientState.mk none [7, 8] false true).reminderQueue = [7, 8] ∧
      isWithinQuietHours 2 = true ∧
      (Task.mk false .high (some 0) true true 0 none []).completed = false) ∧
    (activateNextReminder (ClientState.mk none [7, 8] false true)
        2).state.showReminderPopup = true ∧
    (activateNextReminder (ClientState.mk none [7, 8] false true)
        2).audioScheduled = false ∧
    progressShape (progressReminder
        (Task.mk false .high (some 0) true true 0 none []) false none 100) 100
      = progressShape (progressReminder
        (Task.mk false .high (some 0) true true 0 none []) false none 999) 999 := by
  refine ⟨⟨rfl, rfl, by decide, rfl⟩, ?_, ?_, ?_⟩
  · exact (claim_C8_quiet_hours_silence_audio_only.1
      (ClientState.mk none [7, 8] false true) 7 [8] 2 rfl rfl (by decide)).1
  · exact (claim_C8_quiet_hours_silence_audio_only.1
      (ClientState.mk none [7, 8] false true) 7 [8] 2 rfl rfl (by decide)).2.2
  · exact claim_C8_quiet_hours_silence_audio_only.2
      (Task.mk false .high (some 0) true true 0 none []) false none 100 999 rfl

/-- The dedup key computed by checkPendingReminders:
    reminderId = taskId + "-" + reminderAt. -/
structure ReminderKey where
  taskId : Nat
  reminderAt : Option Int
  deriving DecidableEq, Repr

/-- The client queue together with the per-session processed set
    (processedRemindersRef), which persists across polling rounds. -/
structure ClientQueueState where
  seen : List ReminderKey := []
  queue : List ReminderKey := []
  deriving DecidableEq, Repr

/-- The per-task body of the checkPendingReminders loop: keys already in
    the processed set are skipped; otherwise the key enters the set and
    the task is appended to the tail of the queue. -/
def ingest (s : ClientQueueState) (k : ReminderKey) : ClientQueueState :=
  if k ∈ s.seen then s
  else { seen := k :: s.seen, queue := s.queue ++ [k] }

/-- ingest preserves: each key occurs at most once in the queue, and
    every queued key is in the processed set. -/
theorem ingest_preserves_inv (s : ClientQueueState)
    (h : ∀ k, s.queue.count k ≤ 1 ∧ (k ∈ s.queue → k ∈ s.seen))
    (k0 : ReminderKey) :
    ∀ k, (ingest s k0).queue.count k ≤ 1 ∧
      (k ∈ (ingest s k0).queue → k ∈ (ingest s k0).seen) := by
  intro k
  by_cases hmem : k0 ∈ s.seen
  · simpa [ingest, hmem] using h k
  · have hk0 : k0 ∉ s.queue := fun hq => hmem ((h k0).2 hq)
    constructor
    · rw [show (ingest s k0).queue = s.queue ++ [k0] by simp [ingest, hmem]]
      rw [List.count_append]
      by_cases hk : k = k0
      · subst hk
        have : s.queue.count k = 0 := List.count_eq_zero.mpr hk0
        simp [this]
      · have : List.count k [k0] = 0 := by
          simp [List.count_eq_zero, hk]
        have h1 := (h k).1
        omega
    · intro hq
      rw [show (ingest s k0).queue = s.queue ++ [k0] by simp [ingest, hmem]]
        at hq
      rw [show (ingest s k0).seen = k0 :: s.seen by simp [ingest, hmem]]
      rcases List.mem_append.mp hq with hq1 | hq2
      · exact List.mem_cons_of_mem _ ((h k).2 hq1)
      · simp only [List.mem_singleton] at hq2
        subst hq2
        exact List.mem_cons_self _ _

/-- The invariant holds after any sequence of ingests from a state that
    satisfies it. -/
theorem foldl_ingest_inv (polls : List ReminderKey) :
    ∀ (s : ClientQueueState),
      (∀ k, s.queue.count k ≤ 1 ∧ (k ∈ s.queue → k ∈ s.seen)) →
      ∀ k, ((polls.foldl ingest s).queue.count k ≤ 1 ∧
        (k ∈ (polls.foldl ingest s).queue → k ∈ (polls.foldl ingest s).seen)) := by
  induction polls with
  | nil => intro s h k; simpa using h k
  | cons p rest ih =>
    intro s h k
    exact ih (ingest s p) (ingest_preserves_inv s h p) k

/-- Claim C9: ingest is idempotent — a second ingest of a key already
    ingested changes nothing — and over any sequence of ingests across
    any number of polling rounds, starting from a fresh session, each
    dedup key has at most one entry in the queue. -/
theorem claim_C9_ingest_idempotent :
    (∀ (s : ClientQueueState) (k : ReminderKey),
      ingest (ingest s k) k = ingest s k) ∧
    (∀ (polls : List ReminderKey) (k : ReminderKey),
      ((polls.foldl ingest { seen := [], queue := [] }).queue.count k) ≤ 1) := by
  constructor
  · intro s k
    by_cases hmem : k ∈ s.seen
    · simp [ingest, hmem]
    · have h2 : k ∈ (ingest s k).seen := by
        simp [ingest, hmem]
      rw [show ingest s k
        = { seen := k :: s.seen, queue := s.queue ++ [k] } by simp [ingest, hmem]]
      simp [ingest]
  · intro polls k
    exact (foldl_ingest_inv polls { seen := [], queue := [] }
      (by intro k0; simp) k).1

/-- The options argument of taskService.reminderProgress as callers
    supply it. -/
structure ReminderProgressOpts where
  stopped : Option Bool := none
  snoozeMinutes : Option JsNumber := none
  deriving DecidableEq, Repr

/-- The JSON body the wrapper posts to
    /tasks/:id/reminder-progress. -/
structure ProgressRequestBody where
  stopped : Bool
  snoozeMinutes : Option JsNumber
  deriving DecidableEq, Repr

/-- taskService.reminderProgress destructures only stopped (default
    false) from its options and posts a body containing just that flag;
    a snoozeMinutes option is discarded and absent from the body. -/
def reminderProgressRequestBody (opts : ReminderProgressOpts) :
    ProgressRequestBody :=
  { stopped := opts.stopped.getD false, snoozeMinutes := none }

/-- handleSnooze posts through the wrapper with options
    \x7b snoozeMinutes: minutes \x7d. -/
def handleSnoozeRequestBody (minutes : JsNumber) : ProgressRequestBody :=
  reminderProgressRequestBody { stopped := none, snoozeMinutes := some minutes }

/-- The server handler applied to a request body. -/
def serveProgress (t : Task) (body : ProgressRequestBody) (now : Int) :
    ProgressResult :=
  progressReminder t body.stopped body.snoozeMinutes now

/-- Claim C10: whatever minutes value handleSnooze passes, the body
    actually sent is \x7b stopped: false \x7d with no snoozeMinutes, so the
    server executes the escalation path — identical to a call with no
    snooze at all; on a non-completed, non-exhausted task this
    reschedules +1 hour and increments reminderCount instead of
    snoozing. -/
theorem claim_C10_snooze_minutes_discarded :
    (∀ (m : JsNumber), handleSnoozeRequestBody m
        = { stopped := false, snoozeMinutes := none }) ∧
    (∀ (m : JsNumber) (t : Task) (now : Int),
      serveProgress t (handleSnoozeRequestBody m) now
        = progressReminder t false none now) ∧
    (∀ (m : JsNumber) (t : Task) (now : Int),
      t.completed = false →
      t.reminderCount + 1 < maxReminders t.priority →
      (serveProgress t (handleSnoozeRequestBody m) now).task.reminderAt
          = some (now + 60 * 60 * 1000) ∧
      (serveProgress t (handleSnoozeRequestBody m) now).task.reminderCount
          = t.reminderCount + 1) := by
  refine ⟨fun m => rfl, fun m t now => rfl, ?_⟩
  intro m t now hc hlt
  constructor
  · simp [serveProgress, handleSnoozeRequestBody, reminderProgressRequestBody,
      progressReminder, snoozeRequest, hc, hlt]
  · simp [serveProgress, handleSnoozeRequestBody, reminderProgressRequestBody,
      progressReminder, snoozeRequest, hc, hlt]

/-- Concrete instantiation of claim C10: snoozing 10 minutes from the
    client escalates instead, rescheduling +1 hour. -/
theorem claim_C10_snooze_minutes_discarded_witness :
    ((Task.mk false .high (some 0) true true 0 none []).completed = false ∧
      (Task.mk false .high (some 0) true true 0 none []).reminderCount + 1
        < maxReminders (Task.mk false .high (some 0) true true 0 none []).priority) ∧
    (serveProgress (Task.mk false .high (some 0) true true 0 none [])
        (handleSnoozeRequestBody (.fin 10)) 50).task.reminderAt
      = some (50 + 60 * 60 * 1000) ∧
    (serveProgress (Task.mk false .high (some 0) true true 0 none [])
        (handleSnoozeRequestBody (.fin 10)) 50).task.reminderCount = 1 := by
  refine ⟨⟨rfl, by decide⟩, ?_⟩
  exact claim_C10_snooze_minutes_discarded.2.2 (.fin 10)
    (Task.mk false .high (some 0) true true 0 none []) 50 rfl (by decide)

end STM
